import Mathlib

/-!
# Verification of `clippy_lints/src/loops/while_pop_unwrap.rs`

A shallow embedding of the `while_pop_unwrap` lint: the HIR fragments the
lint inspects, the span-less structural equality it uses to compare
receivers, and the lint functions `match_method_call`, `is_vec_pop_unwrap`,
`check_local`, `check_call_arguments`, `report_lint` and the top-level
`check`, translated directly from the Rust source.
-/

namespace WhilePopUnwrap

/-- A source span, abstracted to an identifier.  The source-text lookup
`snippet(cx, span, "..")` is modelled by a function `Span → String`
(already including the `".."` default for unavailable text). -/
abbrev Span := Nat

/-- The canonical definition paths the lint compares resolved calls
against (`clippy_utils::paths::{OPTION_UNWRAP, OPTION_EXPECT, VEC_POP,
VEC_IS_EMPTY}`), plus a catch-all for every other resolved definition. -/
inductive DefPath where
  | OPTION_UNWRAP
  | OPTION_EXPECT
  | VEC_POP
  | VEC_IS_EMPTY
  | otherDef (n : Nat)
deriving DecidableEq, Repr

/-- A binding pattern (`rustc_hir::Pat`).  The lint only reads its span,
to splice its source text into the suggestion. -/
structure Pat where
  name : String
  span : Span
deriving DecidableEq, Repr

mutual
/-- The fragment of `rustc_hir::Expr` the lint inspects.  A method call
caries its surface name and receiver/argument expressions; the
`resolved` field models `cx.typeck_results().type_dependent_def_id`,
`none` when type information is unavailable. -/
inductive Expr where
  | methodCall (name : String) (resolved : Option DefPath) (recv : Expr)
      (args : List Expr) (span : Span)
  | call (callee : Expr) (args : List Expr) (span : Span)
  | unaryNot (operand : Expr) (span : Span)
  | pathE (name : String) (span : Span)
  | fieldE (base : Expr) (name : String) (span : Span)
  | lit (value : Nat) (span : Span)
  | blockE (stmts : List Stmt) (trailing : Option Expr) (span : Span)

/-- The fragment of `rustc_hir::Stmt`: a local binding (`let pat = init;`),
an expression statement without semicolon (`StmtKind::Expr`) and one with
a semicolon (`StmtKind::Semi`). -/
inductive Stmt where
  | localS (pat : Pat) (init : Option Expr) (span : Span)
  | exprS (e : Expr) (span : Span)
  | semiS (e : Expr) (span : Span)
end

/-- The span of an expression (`expr.span`). -/
def Expr.span : Expr → Span
  | .methodCall _ _ _ _ s => s
  | .call _ _ s => s
  | .unaryNot _ s => s
  | .pathE _ s => s
  | .fieldE _ _ s => s
  | .lit _ s => s
  | .blockE _ _ s => s

mutual
/-- `SpanlessEq::eq_expr`: structural equality of expressions, ignoring
spans (and the side table of resolved ids, which `SpanlessEq` never
consults): same shape, same surface names, recursively equal
sub-expressions. -/
def eqExpr (a b : Expr) : Bool :=
  match a, b with
  | .methodCall n₁ _ r₁ a₁ _, .methodCall n₂ _ r₂ a₂ _ =>
      n₁ == n₂ && eqExpr r₁ r₂ && eqExprList a₁ a₂
  | .call c₁ a₁ _, .call c₂ a₂ _ => eqExpr c₁ c₂ && eqExprList a₁ a₂
  | .unaryNot o₁ _, .unaryNot o₂ _ => eqExpr o₁ o₂
  | .pathE n₁ _, .pathE n₂ _ => n₁ == n₂
  | .fieldE b₁ n₁ _, .fieldE b₂ n₂ _ => eqExpr b₁ b₂ && n₁ == n₂
  | .lit v₁ _, .lit v₂ _ => v₁ == v₂
  | .blockE s₁ t₁ _, .blockE s₂ t₂ _ => eqStmtList s₁ s₂ && eqOptExpr t₁ t₂
  | _, _ => false
termination_by structural a

/-- `SpanlessEq` on optional trailing block expressions. -/
def eqOptExpr (a b : Option Expr) : Bool :=
  match a, b with
  | some e₁, some e₂ => eqExpr e₁ e₂
  | none, none => true
  | _, _ => false
termination_by structural a

/-- `SpanlessEq` pointwise on argument lists. -/
def eqExprList (a b : List Expr) : Bool :=
  match a, b with
  | [], [] => true
  | e₁ :: t₁, e₂ :: t₂ => eqExpr e₁ e₂ && eqExprList t₁ t₂
  | _, _ => false
termination_by structural a

/-- `SpanlessEq::eq_stmt`: kinds must agree; locals compare pattern and
initializer, expression statements compare their expressions. -/
def eqStmt (a b : Stmt) : Bool :=
  match a, b with
  | .localS p₁ i₁ _, .localS p₂ i₂ _ => p₁.name == p₂.name && eqOptExpr i₁ i₂
  | .exprS e₁ _, .exprS e₂ _ => eqExpr e₁ e₂
  | .semiS e₁ _, .semiS e₂ _ => eqExpr e₁ e₂
  | _, _ => false
termination_by structural a

/-- `SpanlessEq` pointwise on statement lists. -/
def eqStmtList (a b : List Stmt) : Bool :=
  match a, b with
  | [], [] => true
  | s₁ :: t₁, s₂ :: t₂ => eqStmt s₁ s₂ && eqStmtList t₁ t₂
  | _, _ => false
termination_by structural a
end

/-- The kind of statement the `pop()` call appeared in (`enum PopStmt`). -/
inductive PopStmt where
  | localP (pat : Pat)
  | anonymous
deriving DecidableEq, Repr

/-- The emitted diagnostic: primary span, message, and the multi-span
suggestion as a list of `(span, replacement)` edits, exactly as handed to
`multispan_sugg_with_applicability`. -/
structure Finding where
  pop_span : Span
  message : String
  sugg : List (Span × String)
deriving DecidableEq, Repr

/-- `report_lint`: builds the diagnostic.  For a local binding the
pattern's source text is reused and the pop statement is deleted; for an
anonymous use the fixed placeholder `element` is bound and substituted. -/
def report_lint (src : Span → String) (pop_span : Span) (pop_stmt_kind : PopStmt)
    (loop_span : Span) (receiver_span : Span) : Finding :=
  let pat_and_repl : String × String :=
    match pop_stmt_kind with
    | .localP pat => (src pat.span, "")
    | .anonymous => ("element", "element")
  let loop_replacement :=
    "while let Some(" ++ pat_and_repl.1 ++ ") = " ++ src receiver_span ++ ".pop()"
  { pop_span := pop_span
    message := "you seem to be trying to pop elements from a `Vec` in a loop"
    sugg := [(loop_span, loop_replacement), (pop_span, pat_and_repl.2)] }

/-- `match_method_call`: true iff `expr` is a method call whose
type-dependent def-id is available and resolves to `method`.  Fails
closed (`false`) when resolution is unavailable. -/
def match_method_call (expr : Expr) (method : DefPath) : Bool :=
  match expr with
  | .methodCall _ resolved _ _ _ =>
    match resolved with
    | some id => id == method
    | none => false
  | _ => false

/-- `is_vec_pop_unwrap`: `expr` is a call resolving to `Option::unwrap`
or `Option::expect` whose receiver is a call resolving to `Vec::pop`,
and the pop's receiver is `SpanlessEq`-equal to `is_empty_recv`. -/
def is_vec_pop_unwrap (expr : Expr) (is_empty_recv : Expr) : Bool :=
  if match_method_call expr DefPath.OPTION_UNWRAP
      || match_method_call expr DefPath.OPTION_EXPECT then
    match expr with
    | .methodCall _ _ unwrap_recv _ _ =>
      if match_method_call unwrap_recv DefPath.VEC_POP then
        match unwrap_recv with
        | .methodCall _ _ pop_recv _ _ => eqExpr pop_recv is_empty_recv
        | _ => false
      else false
    | _ => false
  else false

/-- `check_local`: if the statement is a local binding whose initializer
matches `is_vec_pop_unwrap`, report with the whole statement's span and
the local's pattern. -/
def check_local (src : Span → String) (stmt : Stmt) (is_empty_recv : Expr)
    (loop_span : Span) : Option Finding :=
  match stmt with
  | .localS pat (some init) stmt_span =>
    if is_vec_pop_unwrap init is_empty_recv then
      some (report_lint src stmt_span (PopStmt.localP pat) loop_span is_empty_recv.span)
    else none
  | _ => none

/-- `check_call_arguments`: if the statement is an expression statement
whose expression is a method call or call, find the first argument
matching `is_vec_pop_unwrap` and report with that argument's span. -/
def check_call_arguments (src : Span → String) (stmt : Stmt) (is_empty_recv : Expr)
    (loop_span : Span) : Option Finding :=
  match stmt with
  | .semiS expr _ | .exprS expr _ =>
    match expr with
    | .methodCall _ _ _ args _ | .call _ args _ =>
      let offending_arg := args.findSome? fun arg =>
        if is_vec_pop_unwrap arg is_empty_recv then some arg.span else none
      match offending_arg with
      | some offending =>
        some (report_lint src offending PopStmt.anonymous loop_span is_empty_recv.span)
      | none => none
    | _ => none
  | _ => none

/-- The top-level `check`: the loop condition must be `!recv.is_empty()`
with the call resolving to `Vec::is_empty`, the body a block with at
least one statement; the first statement is then handed to both
`check_local` and `check_call_arguments`.  The findings both emit are
collected in order. -/
def check (src : Span → String) (full_cond : Expr) (body : Expr)
    (loop_span : Span) : List Finding :=
  match full_cond with
  | .unaryNot cond _ =>
    match cond with
    | .methodCall _ _ is_empty_recv _ _ =>
      if match_method_call cond DefPath.VEC_IS_EMPTY then
        match body with
        | .blockE stmts _ _ =>
          match stmts.head? with
          | some stmt =>
            (check_local src stmt is_empty_recv loop_span).toList
              ++ (check_call_arguments src stmt is_empty_recv loop_span).toList
          | none => []
        | _ => []
      else []
    | _ => []
  | _ => []

/-- The receiver of the inner call when an expression has the two-level
method-call shape `recv.m1(..).m2(..)`: for `is_vec_pop_unwrap` matches
this is the receiver of the `pop` call under the `unwrap`. -/
def popReceiver : Expr → Option Expr
  | .methodCall _ _ (.methodCall _ _ pr _ _) _ _ => some pr
  | _ => none

section Examples

/-- Example source map: span 1 is the text `v`, span 10 the pattern `x`;
everything else falls back to the `".."` default of `snippet`. -/
def exSrc : Span → String := fun s =>
  if s = 1 then "v" else if s = 10 then "x" else ".."

/-- The array variable `v`. -/
def vArr : Expr := Expr.pathE "v" 1

/-- `v.is_empty()`, resolved to `Vec::is_empty`. -/
def isEmptyV : Expr := Expr.methodCall "is_empty" (some DefPath.VEC_IS_EMPTY) vArr [] 2

/-- The loop condition `!v.is_empty()`. -/
def condV : Expr := Expr.unaryNot isEmptyV 3

/-- `v.pop()`, resolved to `Vec::pop`. -/
def popV : Expr := Expr.methodCall "pop" (some DefPath.VEC_POP) vArr [] 4

/-- `v.pop().unwrap()`, resolved to `Option::unwrap`. -/
def unwrapPopV : Expr := Expr.methodCall "unwrap" (some DefPath.OPTION_UNWRAP) popV [] 5

/-- `v.pop().expect("msg")`, resolved to `Option::expect`. -/
def expectPopV : Expr := Expr.methodCall "expect" (some DefPath.OPTION_EXPECT) popV [Expr.lit 0 6] 7

/-- The binding pattern `x`. -/
def patX : Pat := { name := "x", span := 10 }

/-- The statement `let x = v.pop().unwrap();`. -/
def localStmtV : Stmt := Stmt.localS patX (some unwrapPopV) 20

/-- Body `{ let x = v.pop().unwrap(); }`. -/
def localBodyV : Expr := Expr.blockE [localStmtV] none 21

/-- The arrays `a` and `b`, condition `!a.is_empty()` and the statement
`let x = b.pop().unwrap();` for the mismatched-receiver scenario. -/
def aArr : Expr := Expr.pathE "a" 30

/-- The array `b`, distinct from `a`. -/
def bArr : Expr := Expr.pathE "b" 31

/-- The loop condition `!a.is_empty()`. -/
def condA : Expr := Expr.unaryNot (Expr.methodCall "is_empty" (some DefPath.VEC_IS_EMPTY) aArr [] 32) 33

/-- `b.pop().unwrap()`, both calls fully resolved. -/
def unwrapPopB : Expr :=
  Expr.methodCall "unwrap" (some DefPath.OPTION_UNWRAP)
    (Expr.methodCall "pop" (some DefPath.VEC_POP) bArr [] 34) [] 35

/-- Body `{ let x = b.pop().unwrap(); }`. -/
def mismatchBody : Expr := Expr.blockE [Stmt.localS patX (some unwrapPopB) 36] none 37

/-- Body `{ let x = v.pop(); }`: a bare pop with no unwrap. -/
def barePopBody : Expr := Expr.blockE [Stmt.localS patX (some popV) 40] none 41

/-- Body `{ let x = v.pop().expect("msg"); }`. -/
def expectBody : Expr := Expr.blockE [Stmt.localS patX (some expectPopV) 42] none 43

/-- `v.pop().unwrap()` at the argument position, with its own span. -/
def unwrapPopVArg : Expr := Expr.methodCall "unwrap" (some DefPath.OPTION_UNWRAP) popV [] 52

/-- The call `process(other_arg, v.pop().unwrap())`. -/
def processCall : Expr :=
  Expr.call (Expr.pathE "process" 50) [Expr.pathE "other_arg" 51, unwrapPopVArg] 53

/-- Body `{ process(other_arg, v.pop().unwrap()); }`. -/
def inlineBody : Expr := Expr.blockE [Stmt.semiS processCall 54] none 55

/-- Body where the antipattern is only the second statement, the first
being an unrelated expression statement. -/
def secondStmtBody : Expr := Expr.blockE [Stmt.semiS (Expr.lit 0 60) 61, localStmtV] none 62

end Examples

/-- Characterization of `is_vec_pop_unwrap`: it succeeds exactly on an
unwrap-or-expect call over a `Vec::pop` call whose receiver is
`SpanlessEq`-equal to `is_empty_recv`. -/
theorem is_vec_pop_unwrap_iff (expr r : Expr) :
    is_vec_pop_unwrap expr r = true ↔
    ∃ n res uname ures pr pargs ps args s,
      expr = Expr.methodCall n res (Expr.methodCall uname ures pr pargs ps) args s ∧
      (res = some DefPath.OPTION_UNWRAP ∨ res = some DefPath.OPTION_EXPECT) ∧
      ures = some DefPath.VEC_POP ∧ eqExpr pr r = true := by
  constructor
  · intro h
    simp only [is_vec_pop_unwrap] at h
    split at h
    · rename_i hres
      split at h
      · rename_i n res unwrap_recv args s
        split at h
        · rename_i hpop
          split at h
          · rename_i uname ures pr pargs ps
            refine ⟨n, res, uname, ures, pr, pargs, ps, args, s, rfl, ?_, ?_, h⟩
            · simp only [match_method_call, Bool.or_eq_true] at hres
              cases res with
              | none => simp at hres
              | some id =>
                rcases hres with h1 | h2
                · left
                  simpa using h1
                · right
                  simpa using h2
            · simp only [match_method_call] at hpop
              cases ures with
              | none => simp at hpop
              | some id => simpa using hpop
          · exact absurd h (by simp)
        · exact absurd h (by simp)
      · exact absurd h (by simp)
    · exact absurd h (by simp)
  · rintro ⟨n, res, uname, ures, pr, pargs, ps, args, s, rfl, hres, rfl, heq⟩
    rcases hres with rfl | rfl <;>
      simp [is_vec_pop_unwrap, match_method_call, heq]

/-- C1: a Finding is produced only if the receiver of the pop call and
the receiver of the emptiness check are structurally equal: whenever
`is_vec_pop_unwrap` (the sole gate to `report_lint` on both paths)
succeeds, the pop call's receiver is `SpanlessEq`-equal to the emptiness
check's receiver; and the mismatched loop
`while !a.is_empty() { let x = b.pop().unwrap(); }` yields no Finding. -/
theorem C1_receivers_structurally_equal :
    (∀ (expr r : Expr), is_vec_pop_unwrap expr r = true →
      ∃ pr, popReceiver expr = some pr ∧ eqExpr pr r = true)
    ∧ check exSrc condA mismatchBody 100 = [] := by
  constructor
  · intro expr r h
    rcases (is_vec_pop_unwrap_iff expr r).mp h with
      ⟨n, res, uname, ures, pr, pargs, ps, args, s, rfl, _, _, heq⟩
    exact ⟨pr, rfl, heq⟩
  · rfl

/-- Witness for C1 at a concrete matching expression. -/
theorem C1_receivers_structurally_equal_witness :
    is_vec_pop_unwrap unwrapPopV vArr = true ∧
    ∃ pr, popReceiver unwrapPopV = some pr ∧ eqExpr pr vArr = true :=
  ⟨by decide, C1_receivers_structurally_equal.1 unwrapPopV vArr (by decide)⟩

/-- C2: the pop-expression matcher succeeds exactly on the two-level
shape (an unwrap-or-expect call over a `Vec::pop` call, with the matching
receiver); a bare pop with no unwrap yields no Finding, and replacing
`.unwrap()` by `.expect("msg")` in the positive scenario still yields the
Finding. -/
theorem C2_matcher_two_level_shape :
    (∀ (expr r : Expr), is_vec_pop_unwrap expr r = true ↔
      ∃ n res uname ures pr pargs ps args s,
        expr = Expr.methodCall n res (Expr.methodCall uname ures pr pargs ps) args s ∧
        (res = some DefPath.OPTION_UNWRAP ∨ res = some DefPath.OPTION_EXPECT) ∧
        ures = some DefPath.VEC_POP ∧ eqExpr pr r = true)
    ∧ check exSrc condV barePopBody 100 = []
    ∧ check exSrc condV expectBody 100 =
        [{ pop_span := 42,
           message := "you seem to be trying to pop elements from a `Vec` in a loop",
           sugg := [(100, "while let Some(x) = v.pop()"), (42, "")] }] :=
  ⟨is_vec_pop_unwrap_iff, rfl, rfl⟩

/-- Witness for C2: the `.expect` form satisfies the matcher via the
right-to-left direction at concrete instantiations. -/
theorem C2_matcher_two_level_shape_witness :
    is_vec_pop_unwrap expectPopV vArr = true :=
  (C2_matcher_two_level_shape.1 expectPopV vArr).mpr
    ⟨"expect", some DefPath.OPTION_EXPECT, "pop", some DefPath.VEC_POP, vArr, [], 4,
      [Expr.lit 0 6], 7, rfl, Or.inr rfl, rfl, by decide⟩

/-- C3: for every local-binding match the suggestion is exactly two
edits applied together: the loop header is replaced by
`while let Some(<pattern>) = <receiver>.pop()` (pattern and receiver
taken from the source text) and the whole local statement's span is
replaced by the empty string; the spec's concrete scenario produces
exactly that Finding. -/
theorem C3_local_binding_two_edits :
    (∀ (src : Span → String) (pat : Pat) (init : Expr) (sspan : Span) (r : Expr) (ls : Span),
      is_vec_pop_unwrap init r = true →
      check_local src (Stmt.localS pat (some init) sspan) r ls =
        some { pop_span := sspan,
               message := "you seem to be trying to pop elements from a `Vec` in a loop",
               sugg := [(ls, "while let Some(" ++ src pat.span ++ ") = " ++ src r.span ++ ".pop()"),
                        (sspan, "")] })
    ∧ check exSrc condV localBodyV 100 =
        [{ pop_span := 20,
           message := "you seem to be trying to pop elements from a `Vec` in a loop",
           sugg := [(100, "while let Some(x) = v.pop()"), (20, "")] }] := by
  constructor
  · intro src pat init sspan r ls h
    simp [check_local, h, report_lint]
  · rfl

/-- Witness for C3 at the spec's concrete local-binding scenario. -/
theorem C3_local_binding_two_edits_witness :
    is_vec_pop_unwrap unwrapPopV vArr = true ∧
    check_local exSrc (Stmt.localS patX (some unwrapPopV) 20) vArr 100 =
      some { pop_span := 20,
             message := "you seem to be trying to pop elements from a `Vec` in a loop",
             sugg := [(100, "while let Some(" ++ exSrc patX.span ++ ") = "
                             ++ exSrc vArr.span ++ ".pop()"), (20, "")] } :=
  ⟨by decide, C3_local_binding_two_edits.1 exSrc patX unwrapPopV 20 vArr 100 (by decide)⟩

/-- C4: for every inline-argument match the suggestion binds the fixed
placeholder `element` in the loop header and replaces exactly the
offending argument's span by that same placeholder — the edit list
contains nothing else; the spec's concrete scenario produces exactly
that Finding. -/
theorem C4_inline_placeholder_edits :
    (∀ (src : Span → String) (stmt : Stmt) (r : Expr) (ls : Span) (f : Finding),
      check_call_arguments src stmt r ls = some f →
      ∃ argspan, f =
        { pop_span := argspan,
          message := "you seem to be trying to pop elements from a `Vec` in a loop",
          sugg := [(ls, "while let Some(element) = " ++ src r.span ++ ".pop()"),
                   (argspan, "element")] })
    ∧ check exSrc condV inlineBody 100 =
        [{ pop_span := 52,
           message := "you seem to be trying to pop elements from a `Vec` in a loop",
           sugg := [(100, "while let Some(element) = v.pop()"), (52, "element")] }] := by
  constructor
  · intro src stmt r ls f h
    simp only [check_call_arguments] at h
    split at h
    all_goals try split at h
    all_goals try split at h
    any_goals exact Option.noConfusion h
    all_goals
      injection h with h
      subst h
      exact ⟨_, rfl⟩
  · rfl

/-- Witness for C4 at the spec's concrete inline-argument scenario. -/
theorem C4_inline_placeholder_edits_witness :
    check_call_arguments exSrc (Stmt.semiS processCall 54) vArr 100 =
      some { pop_span := 52,
             message := "you seem to be trying to pop elements from a `Vec` in a loop",
             sugg := [(100, "while let Some(element) = v.pop()"), (52, "element")] } ∧
    ∃ argspan,
      ({ pop_span := 52,
         message := "you seem to be trying to pop elements from a `Vec` in a loop",
         sugg := [(100, "while let Some(element) = v.pop()"), (52, "element")] } : Finding) =
      { pop_span := argspan,
        message := "you seem to be trying to pop elements from a `Vec` in a loop",
        sugg := [(100, "while let Some(element) = " ++ exSrc vArr.span ++ ".pop()"),
                 (argspan, "element")] } :=
  ⟨by decide,
    C4_inline_placeholder_edits.1 exSrc (Stmt.semiS processCall 54) vArr 100 _ (by decide)⟩

/-- C5: a Finding can be produced only when the loop condition is a
logical negation of a method call resolving to `Vec::is_empty`; any
other condition shape yields no Finding. -/
theorem C5_condition_must_be_not_is_empty (src : Span → String) (cond body : Expr)
    (ls : Span) (h : check src cond body ls ≠ []) :
    ∃ inner nspan, cond = Expr.unaryNot inner nspan ∧
      ∃ n recv args s, inner = Expr.methodCall n (some DefPath.VEC_IS_EMPTY) recv args s := by
  simp only [check] at h
  split at h
  · rename_i inner nspan
    split at h
    · rename_i n res recv args s
      split at h
      · rename_i hc
        simp only [match_method_call] at hc
        cases res with
        | none => simp at hc
        | some id =>
          have hid : id = DefPath.VEC_IS_EMPTY := by simpa using hc
          subst hid
          exact ⟨_, _, rfl, n, recv, args, s, rfl⟩
      · exact absurd rfl h
    · exact absurd rfl h
  · exact absurd rfl h

/-- Witness for C5 at the concrete positive local-binding loop. -/
theorem C5_condition_must_be_not_is_empty_witness :
    check exSrc condV localBodyV 100 ≠ [] ∧
    ∃ inner nspan, condV = Expr.unaryNot inner nspan ∧
      ∃ n recv args s, inner = Expr.methodCall n (some DefPath.VEC_IS_EMPTY) recv args s :=
  ⟨by decide, C5_condition_must_be_not_is_empty exSrc condV localBodyV 100 (by decide)⟩

/-- C6: only the first statement of the loop body is inspected: the
result of `check` does not depend on the rest of the block at all, and
the antipattern appearing as the second statement (first being
unrelated) yields no Finding. -/
theorem C6_only_first_statement_inspected :
    (∀ (src : Span → String) (cond : Expr) (st : Stmt) (rest rest' : List Stmt)
        (t t' : Option Expr) (bs bs' ls : Span),
      check src cond (Expr.blockE (st :: rest) t bs) ls =
        check src cond (Expr.blockE (st :: rest') t' bs') ls)
    ∧ check exSrc condV secondStmtBody 100 = [] := by
  constructor
  · intro src cond st rest rest' t t' bs bs' ls
    cases cond with
    | unaryNot inner nspan => cases inner <;> rfl
    | methodCall n res recv args sp => rfl
    | call c args sp => rfl
    | pathE n sp => rfl
    | fieldE b n sp => rfl
    | lit v sp => rfl
    | blockE sl tr sp => rfl
  · rfl

/-- `List.findSome?` returns the image of the first element on which the
function succeeds, independently of anything after it. -/
theorem findSome?_append_cons {α β : Type} (p : α → Option β) (pre post : List α)
    (a : α) (b : β) (hpre : ∀ x ∈ pre, p x = none) (hb : p a = some b) :
    (pre ++ a :: post).findSome? p = some b := by
  induction pre with
  | nil => simp [List.findSome?_cons, hb]
  | cons x t ih =>
    have hx := hpre x (List.mem_cons_self x t)
    simp only [List.cons_append, List.findSome?_cons, hx]
    exact ih fun y hy => hpre y (List.mem_cons_of_mem x hy)

/-- C7: arguments are searched in textual order and the Finding is
produced for the first matching one, with that argument's span as pop
span; later matching arguments (anywhere in `post`) produce no further
Finding, the result being a single optional Finding.  Both free calls
and method calls are covered. -/
theorem C7_first_matching_argument (src : Span → String) (f : Expr) (pre post : List Expr)
    (a r : Expr) (n : String) (res : Option DefPath) (recv : Expr) (cs ms ss ls : Span)
    (hpre : ∀ b ∈ pre, is_vec_pop_unwrap b r = false)
    (ha : is_vec_pop_unwrap a r = true) :
    check_call_arguments src (Stmt.semiS (Expr.call f (pre ++ a :: post) cs) ss) r ls =
      some (report_lint src a.span PopStmt.anonymous ls r.span) ∧
    check_call_arguments src
        (Stmt.semiS (Expr.methodCall n res recv (pre ++ a :: post) ms) ss) r ls =
      some (report_lint src a.span PopStmt.anonymous ls r.span) := by
  have hfs : (pre ++ a :: post).findSome?
      (fun arg => if is_vec_pop_unwrap arg r then some arg.span else none) = some a.span :=
    findSome?_append_cons _ pre post a a.span
      (fun x hx => by simp [hpre x hx]) (by simp [ha])
  constructor <;> simp only [check_call_arguments, hfs]

/-- Witness for C7: `process(other_arg, v.pop().unwrap())` with a second
matching argument appended still reports the first match. -/
theorem C7_first_matching_argument_witness :
    (∀ b ∈ [Expr.pathE "other_arg" 51], is_vec_pop_unwrap b vArr = false) ∧
    is_vec_pop_unwrap unwrapPopVArg vArr = true ∧
    check_call_arguments exSrc
        (Stmt.semiS (Expr.call (Expr.pathE "process" 50)
          ([Expr.pathE "other_arg" 51] ++ unwrapPopVArg :: [unwrapPopV]) 53) 54) vArr 100 =
      some (report_lint exSrc unwrapPopVArg.span PopStmt.anonymous 100 vArr.span) :=
  ⟨by decide, by decide,
    (C7_first_matching_argument exSrc (Expr.pathE "process" 50) [Expr.pathE "other_arg" 51]
      [unwrapPopV] unwrapPopVArg vArr "g" none vArr 53 0 54 100
      (by decide) (by decide)).1⟩

/-- C8: when symbol resolution is unavailable for a call (no resolved
def-id), the call-identity test returns false for every queried path,
and a loop whose condition's call is unresolved produces no Finding —
the situation is not an error, just no match. -/
theorem C8_unresolved_fails_closed :
    (∀ (name : String) (recv : Expr) (args : List Expr) (s : Span) (method : DefPath),
      match_method_call (Expr.methodCall name none recv args s) method = false)
    ∧ (∀ (src : Span → String) (body : Expr) (ls : Span) (name : String) (recv : Expr)
        (args : List Expr) (s nspan : Span),
      check src (Expr.unaryNot (Expr.methodCall name none recv args s) nspan) body ls = []) := by
  constructor
  · intro name recv args s method
    rfl
  · intro src body ls name recv args s nspan
    rfl

/-- C9: a loop whose body block contains zero statements yields no
Finding, whatever the trailing expression of the block is (it is not a
statement, so the antipattern there is never seen). -/
theorem C9_empty_body_no_finding (src : Span → String) (cond : Expr) (t : Option Expr)
    (bs ls : Span) : check src cond (Expr.blockE [] t bs) ls = [] := by
  cases cond with
  | unaryNot inner nspan => cases inner <;> simp [check]
  | methodCall n res recv args sp => rfl
  | call c args sp => rfl
  | pathE n sp => rfl
  | fieldE b n sp => rfl
  | lit v sp => rfl
  | blockE sl tr sp => rfl

/-- A statement is a local binding or an expression statement, never
both: at least one of the two classification paths returns nothing. -/
theorem check_local_or_call_arguments_none (src : Span → String) (stmt : Stmt)
    (r : Expr) (ls : Span) :
    check_local src stmt r ls = none ∨ check_call_arguments src stmt r ls = none := by
  cases stmt with
  | localS pat init sspan => exact Or.inr rfl
  | exprS e sspan => exact Or.inl rfl
  | semiS e sspan => exact Or.inl rfl

/-- C10: one invocation of `check` on a loop node produces at most one
Finding: the local-binding path and the inline-argument path are
mutually exclusive on the first statement. -/
theorem C10_at_most_one_finding (src : Span → String) (cond body : Expr) (ls : Span) :
    (check src cond body ls).length ≤ 1 := by
  cases cond <;> try simp [check]
  case unaryNot inner nspan =>
    cases inner
    case call c args sp => simp [check]
    case unaryNot o sp => simp [check]
    case pathE nm sp => simp [check]
    case fieldE b nm sp => simp [check]
    case lit v sp => simp [check]
    case blockE sl tr sp => simp [check]
    case methodCall n res recv args s =>
      simp only [check]
      split
      · cases body <;> try simp
        case blockE stmts t bs =>
          cases stmts with
          | nil => simp
          | cons st rest =>
            simp only [List.head?]
            rcases check_local_or_call_arguments_none src st recv ls with hnone | hnone
            · rw [hnone]
              cases check_call_arguments src st recv ls <;> simp
            · rw [hnone]
              cases check_local src st recv ls <;> simp
      · simp

end WhilePopUnwrap
